import Mathlib

/-!
# Verification of the resumable dual-source transcript acquisition pipeline

Shallow embedding of `run.py`: the checkpoint store, the status state
machine (`process_video`), the retry executor (`download_with_retry`),
the two provider adapters' response handling, and the binary parameter
encoder (`create_lang_protobuf`, `create_params_protobuf`,
`encode_params`).

Modelling conventions:
* Python byte strings (`bytes` / `bytearray`) are `List Nat`, each
  element a byte value.  `bytearray.append` raises `ValueError` for a
  value outside `0..255`; functions that can hit that raise return
  `Option`, with `none` for the exception.
* ASCII text strings produced by the encoder pipeline (base64 output,
  percent-encoded output) are also modelled as their byte sequences
  (`List Nat`), which is one-to-one for the ASCII-only data involved.
* JSON dictionaries read by the adapters are modelled as structures
  whose fields are `Option`s (`none` = key absent / value `null`);
  Python truthiness tests on sub-dictionaries are modelled explicitly
  (see `VtOrig.extra`).
* Wall-clock effects (`time.sleep`, `time.time`) are not modelled as
  values; `download_with_retry` instead reports how many sleeps it
  performed, and the checkpoint entry's `timestamp` field is dropped.
* Network I/O is abstracted: an adapter is a function of the HTTP
  response it received, and the batch layers take the retry-executor
  outcome for each provider id from an explicit environment.
-/

set_option autoImplicit false

namespace Run

/-! ## Data model -/

/-- The status constants `STATUS_OK = 'ok'`, `STATUS_NO_SUBTITLE = 'no_subtitle'`,
`STATUS_FAILED = 'failed'` of `run.py`. -/
inductive Status where
  | ok
  | noSubtitle
  | failed
  deriving DecidableEq, Repr

/-- `MAX_PER_SESSION = 100` -/
def MAX_PER_SESSION : Nat := 100

/-- `MAX_RETRIES = 3` -/
def MAX_RETRIES : Nat := 3

/-- A transcript segment `{startTime, endTime, text}`; times are exact
rationals (Python floats' rounding plays no role in any claim). -/
structure Segment where
  startTime : Rat
  endTime : Rat
  text : String
  deriving DecidableEq, Repr

/-- One checkpoint entry, as written by `process_video`:
`{vtid, ytid, vt_status, yt_status, timestamp}`.  The two status fields
are `Option` because an entry read back from the progress file (or the
empty entry `{}`) may lack them; `timestamp` is a wall-clock effect and
is dropped. -/
structure Entry where
  vtid : String
  ytid : String
  vt_status : Option Status
  yt_status : Option Status
  deriving DecidableEq, Repr

/-- The empty dictionary `{}` used for an item with no prior progress. -/
def Entry.empty : Entry := ⟨"", "", none, none⟩

/-- `is_done(entry)`: both `entry.get('vt_status')` and
`entry.get('yt_status')` are in `(STATUS_OK, STATUS_NO_SUBTITLE)`. -/
def is_done (entry : Entry) : Bool :=
  (entry.vt_status = some .ok ∨ entry.vt_status = some .noSubtitle) ∧
  (entry.yt_status = some .ok ∨ entry.yt_status = some .noSubtitle)

/-! ## Checkpoint store -/

/-- The in-memory progress mapping, row id → entry.  Python dict
modelled as an association list; `insert` shadows an older binding. -/
def Progress := List (String × Entry)

instance : DecidableEq Progress := by
  unfold Progress
  infer_instance

/-- `progress.get(row_id, {})` key presence: first binding for the key. -/
def Progress.find (p : Progress) (k : String) : Option Entry :=
  match p with
  | [] => none
  | (k', v) :: rest => if k' = k then some v else Progress.find rest k

/-- `progress[row_id] = entry` (dict assignment). -/
def Progress.insert (p : Progress) (k : String) (v : Entry) : Progress :=
  (k, v) :: p

/-- State of the progress file at process start: absent, present but
unparseable (`json.load` raises `JSONDecodeError`), or present and
parsed to a mapping. -/
inductive FileState where
  | missing
  | present (parsed : Option Progress)

/-- `load_progress()`: if the file exists, try `json.load`; a
`JSONDecodeError` is caught and `{}` returned; if the file does not
exist, return `{}`. -/
def load_progress : FileState → Progress
  | .missing => []
  | .present none => []
  | .present (some m) => m

/-! ## Binary parameter encoder -/

/-- UTF-8 bytes of a string, as `str.encode('utf-8')` produces them. -/
def strBytes (s : String) : List Nat :=
  s.toUTF8.data.toList.map (fun b => b.toNat)

/-- `create_lang_protobuf(lang_code)` on the already-encoded UTF-8 bytes
of the language code: `bytearray([0x0A, 0x03]) + b'asr' + [0x12] +
[len(lang_bytes)] + lang_bytes + [0x1A, 0x00]`.  `res.append(len(lang_bytes))`
raises `ValueError` when the length exceeds 255, modelled as `none`. -/
def create_lang_protobuf (langBytes : List Nat) : Option (List Nat) :=
  if 256 ≤ langBytes.length then none
  else
    some ([0x0A, 0x03] ++ [0x61, 0x73, 0x72] ++ [0x12, langBytes.length] ++
      langBytes ++ [0x1A, 0x00])

/-- `create_params_protobuf(video_id, url_encoded_lang)` on the UTF-8
bytes of its two arguments: `[0x0A, len(vid)] + vid + [0x12, len(lang)]
+ lang + [0x18, 0x01]`; either length byte above 255 raises
`ValueError` (the video id one first), modelled as `none`. -/
def create_params_protobuf (vidBytes langBytes : List Nat) : Option (List Nat) :=
  if 256 ≤ vidBytes.length then none
  else if 256 ≤ langBytes.length then none
  else
    some ([0x0A, vidBytes.length] ++ vidBytes ++ [0x12, langBytes.length] ++
      langBytes ++ [0x18, 0x01])

/-! ## Encoder string pipeline: base64, percent-encoding, `=` replacement

`encode_params` runs `base64.b64encode`, `urllib.parse.quote` and
`str.replace('=', '%3D')` over ASCII text; the text is modelled as its
byte sequence. -/

/-- Byte values of the standard base64 alphabet
`A..Z a..z 0..9 + /` used by `base64.b64encode`. -/
def b64AlphabetBytes : List Nat :=
  strBytes "ABCDEFGHIJKLMNOPQRSTUVWXYZabcdefghijklmnopqrstuvwxyz0123456789+/"

/-- The base64 digit for a 6-bit group. -/
def b64byte (n : Nat) : Nat := b64AlphabetBytes.getD n 65

/-- `base64.b64encode`: 3-byte groups to 4 base64 digits, with `=`
(byte 61) padding for a 1- or 2-byte tail. -/
def b64encode : List Nat → List Nat
  | [] => []
  | [a] => [b64byte (a / 4), b64byte (a % 4 * 16), 61, 61]
  | [a, b] => [b64byte (a / 4), b64byte (a % 4 * 16 + b / 16), b64byte (b % 16 * 4), 61]
  | a :: b :: c :: rest =>
    b64byte (a / 4) :: b64byte (a % 4 * 16 + b / 16) ::
      b64byte (b % 16 * 4 + c / 64) :: b64byte (c % 64) :: b64encode rest

/-- An uppercase hexadecimal digit, as `quote`'s `%XX` formatting
produces it (`0..9` then `A..F`; out-of-range input cannot occur for a
nibble). -/
def hexUpper (n : Nat) : Nat :=
  if n < 10 then 48 + n else if n < 16 then 55 + n else 48

/-- `urllib.parse.quote`'s safe set with the default `safe='/'`:
ASCII letters, digits, `_ . - ~` and `/`.  `=` (61) is NOT in it. -/
def isQuoteSafe (b : Nat) : Bool :=
  (65 ≤ b && b ≤ 90) || (97 ≤ b && b ≤ 122) || (48 ≤ b && b ≤ 57) ||
    b == 95 || b == 46 || b == 45 || b == 126 || b == 47

/-- `quote` on one byte: pass a safe byte through, otherwise emit
`%` followed by two uppercase hex digits. -/
def pyQuoteByte (b : Nat) : List Nat :=
  if isQuoteSafe b then [b] else [37, hexUpper (b / 16), hexUpper (b % 16)]

/-- `urllib.parse.quote(s)` over the byte sequence of `s`. -/
def pyQuote : List Nat → List Nat
  | [] => []
  | b :: rest => pyQuoteByte b ++ pyQuote rest

/-- `s.replace('=', '%3D')`: every `=` byte (61) becomes the three
bytes `% 3 D` (37, 51, 68). -/
def replaceEq : List Nat → List Nat
  | [] => []
  | b :: rest => (if b = 61 then [37, 51, 68] else [b]) ++ replaceEq rest

/-- `encode_params(video_id, lang_code)` on UTF-8 byte sequences:
build the inner language record, base64 it, percent-encode, replace
`=`, build the outer record with the encoded string's bytes, base64
the result.  `none` models a `ValueError` from a length byte. -/
def encode_params (vidBytes langBytes : List Nat) : Option (List Nat) := do
  let lang_proto ← create_lang_protobuf langBytes
  let lang_b64 := b64encode lang_proto
  let url_encoded := replaceEq (pyQuote lang_b64)
  let params_proto ← create_params_protobuf vidBytes url_encoded
  pure (b64encode params_proto)

/-! ## Retry executor -/

/-- Outcome of one `fetch_fn(video_id)` call inside
`download_with_retry`: it raised, or it returned (`None` or a segment
list). -/
inductive FetchAttempt where
  | raise
  | result (data : Option (List Segment))

/-- What `download_with_retry` hands back to `process_video`: the
segment list itself (a Python `list`), or one of the status strings
`STATUS_NO_SUBTITLE` / `STATUS_FAILED`. -/
inductive Outcome where
  | data (segments : List Segment)
  | noSubtitle
  | failed
  deriving DecidableEq, Repr

/-- Observable result of one `download_with_retry` run: the outcome,
how many attempts ran, and how many `time.sleep(DELTA_TIME)` calls
happened. -/
structure RetryRun where
  outcome : Outcome
  attempts : Nat
  sleeps : Nat
  deriving DecidableEq, Repr

/-- The `for attempt in range(1, MAX_RETRIES + 1)` loop of
`download_with_retry`, with `fuel` attempts left (attempt number
`attempt` runs first).  A returned list or `None` ends the loop at
once; an exception sleeps once unless this was the last attempt; a
fully exhausted loop yields `STATUS_FAILED`. -/
def download_with_retry_go (fetch : Nat → FetchAttempt) (attempt : Nat) :
    Nat → RetryRun
  | 0 => ⟨.failed, 0, 0⟩
  | fuel + 1 =>
    match fetch attempt with
    | .result (some segs) => ⟨.data segs, 1, 0⟩
    | .result none => ⟨.noSubtitle, 1, 0⟩
    | .raise =>
      if fuel = 0 then ⟨.failed, 1, 0⟩
      else
        let r := download_with_retry_go fetch (attempt + 1) fuel
        ⟨r.outcome, r.attempts + 1, r.sleeps + 1⟩

/-- `download_with_retry(fetch_fn, video_id, label)`, abstracted over
the per-attempt behaviour of `fetch_fn(video_id)`. -/
def download_with_retry (fetch : Nat → FetchAttempt) : RetryRun :=
  download_with_retry_go fetch 1 MAX_RETRIES

/-! ## Status state machine (`process_video`) -/

/-- Environment for the batch layers: the retry-executor outcome for
each provider identifier (one entry per possible
`download_with_retry(fetch_vt_transcript, vtid)` /
`download_with_retry(fetch_yt_transcript, ytid)` call). -/
structure Env where
  vt : String → Outcome
  yt : String → Outcome

/-- Result of `process_video`: the returned entry, how many retry
executor invocations happened per provider, and which
`<provider-id>.json` files were written with which segment lists. -/
structure PVResult where
  entry : Entry
  vtCalls : Nat
  ytCalls : Nat
  vtWrites : List (String × List Segment)
  ytWrites : List (String × List Segment)
  deriving DecidableEq, Repr

/-- One provider branch of `process_video`, written once and used for
both: `if pid and status not in (OK, NO_SUBTITLE): fetch ...
elif not pid: status = NO_SUBTITLE` (else keep the status). Returns
(new status, number of retry-executor calls, sink writes). -/
def provider_step (fetched : String → Outcome) (pid : String) (status0 : Status) :
    Status × Nat × List (String × List Segment) :=
  if pid ≠ "" ∧ status0 ≠ .ok ∧ status0 ≠ .noSubtitle then
    match fetched pid with
    | .data segs => (.ok, 1, [(pid, segs)])
    | .noSubtitle => (.noSubtitle, 1, [])
    | .failed => (.failed, 1, [])
  else if pid = "" then (.noSubtitle, 0, [])
  else (status0, 0, [])

/-- `process_video(row_id, vtid, ytid, entry)`: read each status with
default `STATUS_FAILED`, run the two independent provider branches,
and return the updated entry (the `timestamp` field is dropped). -/
def process_video (env : Env) (vtid ytid : String) (entry : Entry) : PVResult :=
  let vtRes := provider_step env.vt vtid (entry.vt_status.getD .failed)
  let ytRes := provider_step env.yt ytid (entry.yt_status.getD .failed)
  ⟨⟨vtid, ytid, some vtRes.1, some ytRes.1⟩, vtRes.2.1, ytRes.2.1, vtRes.2.2, ytRes.2.2⟩

/-! ## Provider adapters (response handling)

Each adapter is modelled as a function of the HTTP response it got:
the status code and the decoded JSON body.  `none` is the no-data
sentinel (`return None`). -/

/-- The `originalText` sub-dictionary of a VoiceTube caption line.
`text` is the `'text'` key (`none` = absent); `extra` records whether
the dictionary has any other keys — Python's `if not original_text:`
truthiness test depends on it (`{}` is falsy, `{'lang': 'en'}` is
truthy). -/
structure VtOrig where
  text : Option String
  extra : Bool
  deriving DecidableEq, Repr

/-- Python truthiness of the `originalText` dictionary: non-empty. -/
def VtOrig.truthy (o : VtOrig) : Bool := o.text.isSome || o.extra

/-- One element of `captionLines`: `startAt`, `duration` (absent keys
default to 0 via `line.get(..., 0)`), and the `originalText` value
(`none` = key absent or `null`). -/
structure VtLine where
  startAt : Option Rat
  duration : Option Rat
  originalText : Option VtOrig
  deriving DecidableEq, Repr

/-- The caption-line loop of `fetch_vt_transcript`: skip a line whose
`originalText` is falsy, otherwise emit
`{startTime: startAt, endTime: startAt + duration, text: originalText.get('text', '')}`. -/
def vt_parse_lines : List VtLine → List Segment
  | [] => []
  | line :: rest =>
    match line.originalText with
    | none => vt_parse_lines rest
    | some o =>
      if o.truthy then
        { startTime := line.startAt.getD 0,
          endTime := line.startAt.getD 0 + line.duration.getD 0,
          text := o.text.getD "" } :: vt_parse_lines rest
      else vt_parse_lines rest

/-- The `data['data']` object: its `captionLines` value (`none` = key
absent or `null`). -/
structure VtData where
  captionLines : Option (List VtLine)
  deriving DecidableEq, Repr

/-- `fetch_vt_transcript(vtid)` as a function of the response: `None`
unless the status code is 200; `None` when the body is falsy or has no
`'data'` key (the `body = none` case); `None` for a falsy
`captionLines`; otherwise the parsed lines, or `None` if the parsed
list is empty. -/
def fetch_vt_transcript (statusCode : Nat) (body : Option VtData) :
    Option (List Segment) :=
  if statusCode ≠ 200 then none
  else
    match body with
    | none => none
    | some d =>
      match d.captionLines with
      | none => none
      | some [] => none
      | some lines =>
        let transcript := vt_parse_lines lines
        if transcript.isEmpty then none else some transcript

/-- A `transcriptSegmentRenderer`: millisecond offsets (absent keys
default to 0) and the text content.  `content` stands for the chain
`renderer.get('snippet', {}).get('elementsAttributedString', {}).get('content')`,
which is `None` exactly when any level is absent. -/
structure YtRenderer where
  startMs : Option Int
  endMs : Option Int
  content : Option String
  deriving DecidableEq, Repr

/-- One element of `initialSegments`: its
`transcriptSegmentRenderer` value (`none` = absent or falsy; an
all-absent renderer behaves identically to an absent one since its
`content` is `None`). -/
structure YtSeg where
  transcriptSegmentRenderer : Option YtRenderer
  deriving DecidableEq, Repr

/-- `parse_segments(initial_segments)`: skip a segment without a
renderer; skip a renderer whose `content` is `None`; otherwise emit
`{startTime: startMs/1000, endTime: endMs/1000, text: content}`. -/
def parse_segments : List YtSeg → List Segment
  | [] => []
  | seg :: rest =>
    match seg.transcriptSegmentRenderer with
    | none => parse_segments rest
    | some r =>
      match r.content with
      | none => parse_segments rest
      | some c =>
        { startTime := (r.startMs.getD 0 : Rat) / 1000,
          endTime := (r.endMs.getD 0 : Rat) / 1000,
          text := c } :: parse_segments rest

/-- First element of the `actions` list, modelled down to the
`initialSegments` value: `initialSegments` stands for the fixed chain
of four nested `get(..., {})` lookups below `elementsCommand`, which
yields `None` exactly when any level is absent. -/
structure YtAction where
  initialSegments : Option (List YtSeg)
  deriving DecidableEq, Repr

/-- Decoded body of the `get_transcript` response. -/
structure YtBody where
  actions : Option (List YtAction)
  deriving DecidableEq, Repr

/-- `extract_initial_segments(data)`: `None` for an absent or empty
`actions` list; from `actions[0]`, `None` for an absent or empty
`initialSegments`; otherwise the segments. -/
def extract_initial_segments (data : YtBody) : Option (List YtSeg) :=
  match data.actions with
  | none => none
  | some [] => none
  | some (action :: _) =>
    match action.initialSegments with
    | none => none
    | some [] => none
    | some segs => some segs

/-- `fetch_yt_transcript(video_id, lang_code)` as a function of the
response (the request side — `encode_params`, payload, headers — does
not influence the returned value): `None` unless the status code is
200, `None` when `extract_initial_segments` finds nothing, otherwise
`parse_segments` of the found list (which may itself be empty). -/
def fetch_yt_transcript (statusCode : Nat) (body : YtBody) :
    Option (List Segment) :=
  if statusCode ≠ 200 then none
  else
    match extract_initial_segments body with
    | none => none
    | some segs => some (parse_segments segs)

/-! ## Batch runner (`main`) -/

/-- One CSV row: `row.get('id', '')`, `row.get('vtid', '')`,
`row.get('ytid', '')`. -/
structure Row where
  id : String
  vtid : String
  ytid : String
  deriving DecidableEq, Repr

/-- Observable result of one `main` session: the final progress
mapping (each processed item was checkpointed into it immediately),
the session counter, and the row ids for which the status state
machine ran, in order. -/
structure RunResult where
  progress : Progress
  processed : Nat
  processedIds : List String
  deriving DecidableEq

/-- The row loop of `main`: stop once `processed >= MAX_PER_SESSION`;
skip a row whose existing entry is present (truthy) and done;
otherwise run `process_video` on the existing entry (or `{}`), store
the result under the row id (followed by `save_progress`), and count
it. -/
def main_loop (env : Env) : List Row → Progress → Nat → RunResult
  | [], p, n => ⟨p, n, []⟩
  | row :: rest, p, n =>
    if MAX_PER_SESSION ≤ n then ⟨p, n, []⟩
    else
      match Progress.find p row.id with
      | some e =>
        if is_done e then main_loop env rest p n
        else
          let pv := process_video env row.vtid row.ytid e
          let r := main_loop env rest (Progress.insert p row.id pv.entry) (n + 1)
          ⟨r.progress, r.processed, row.id :: r.processedIds⟩
      | none =>
        let pv := process_video env row.vtid row.ytid Entry.empty
        let r := main_loop env rest (Progress.insert p row.id pv.entry) (n + 1)
        ⟨r.progress, r.processed, row.id :: r.processedIds⟩

/-- An environment where every fetch reports "no subtitle" — all
processed items end up done, with no failures. -/
def env0 : Env := ⟨fun _ => .noSubtitle, fun _ => .noSubtitle⟩

/-- 150 pending rows with distinct ids. -/
def rows150 : List Row := (List.range 150).map (fun i => ⟨toString i, "a", "b"⟩)

/-- First session over the 150 rows, from an empty checkpoint. -/
def run1 : RunResult := main_loop env0 rows150 [] 0

/-- Second session over the same rows, resuming from the first
session's checkpoint. -/
def run2 : RunResult := main_loop env0 rows150 run1.progress 0

/-! ## Theorems (checkpoint predicate, checkpoint load, encoder bytes) -/

/-- C5: `is_done(entry)` holds iff both provider statuses are in
`{OK, NO_SUBTITLE}`; in particular an entry missing a status field is
not done. -/
theorem is_done_iff :
    (∀ e : Entry, is_done e = true ↔
      ((e.vt_status = some .ok ∨ e.vt_status = some .noSubtitle) ∧
       (e.yt_status = some .ok ∨ e.yt_status = some .noSubtitle))) ∧
    (∀ e : Entry, e.vt_status = none ∨ e.yt_status = none → is_done e = false) := by
  constructor
  · intro e
    simp [is_done]
  · intro e h
    rcases h with h | h <;> simp [is_done, h]

/-- Witness for `is_done_iff`: a concrete entry missing its `vt_status`
field is not done. -/
theorem is_done_iff_witness :
    is_done ⟨"a", "b", none, some .ok⟩ = false :=
  is_done_iff.2 ⟨"a", "b", none, some .ok⟩ (Or.inl rfl)

/-- C9: `load_progress` returns the empty mapping when the file is
missing, silently returns the empty mapping when the file is
unparseable (the `JSONDecodeError` handler returns `{}`; being a total
function, the model propagates no exception), and otherwise returns the
full parsed mapping. -/
theorem load_progress_spec :
    load_progress .missing = [] ∧
    load_progress (.present none) = [] ∧
    ∀ m : Progress, load_progress (.present (some m)) = m := by
  refine ⟨rfl, rfl, fun m => rfl⟩

/-- C3: the inner language record for `lang="en"` is exactly the 11
bytes `0A 03 61 73 72 12 02 65 6E 1A 00`, and the outer params record
for `videoId="v1"` and encoded-language string `"ABCD"` is exactly the
12 bytes `0A 02 76 31 12 04 41 42 43 44 18 01`.  (Determinism and
purity are immediate: both encoders are functions of their inputs.) -/
theorem encoder_bytes :
    create_lang_protobuf (strBytes "en") =
      some [0x0A, 0x03, 0x61, 0x73, 0x72, 0x12, 0x02, 0x65, 0x6E, 0x1A, 0x00] ∧
    create_params_protobuf (strBytes "v1") (strBytes "ABCD") =
      some [0x0A, 0x02, 0x76, 0x31, 0x12, 0x04, 0x41, 0x42, 0x43, 0x44, 0x18, 0x01] := by
  constructor <;> decide

/-- C10: when a field's byte length fits in one byte (≤ 255), the
emitted length prefix is exactly that byte length; when any field's
byte length exceeds 255, the encoder raises (`bytearray.append` /
`bytearray(...)` `ValueError`, modelled as `none`) instead of emitting
a truncated or wrapped length byte. -/
theorem encoder_length_safety :
    (∀ L : List Nat, L.length ≤ 255 →
      create_lang_protobuf L =
        some ([0x0A, 0x03, 0x61, 0x73, 0x72, 0x12, L.length] ++ L ++ [0x1A, 0x00])) ∧
    (∀ L : List Nat, 255 < L.length → create_lang_protobuf L = none) ∧
    (∀ V E : List Nat, V.length ≤ 255 → E.length ≤ 255 →
      create_params_protobuf V E =
        some ([0x0A, V.length] ++ V ++ [0x12, E.length] ++ E ++ [0x18, 0x01])) ∧
    (∀ V E : List Nat, 255 < V.length ∨ 255 < E.length →
      create_params_protobuf V E = none) := by
  refine ⟨fun L hL => ?_, fun L hL => ?_, fun V E hV hE => ?_, fun V E h => ?_⟩
  · have h : ¬ 256 ≤ L.length := by omega
    simp [create_lang_protobuf, h]
  · have h : 256 ≤ L.length := by omega
    simp [create_lang_protobuf, h]
  · have h1 : ¬ 256 ≤ V.length := by omega
    have h2 : ¬ 256 ≤ E.length := by omega
    simp [create_params_protobuf, h1, h2]
  · rcases h with h | h
    · have h1 : 256 ≤ V.length := by omega
      simp [create_params_protobuf, h1]
    · by_cases hV : 256 ≤ V.length
      · simp [create_params_protobuf, hV]
      · have h2 : 256 ≤ E.length := by omega
        simp [create_params_protobuf, hV, h2]

/-- Witness for `encoder_length_safety`: concrete in-range and
out-of-range field lengths. -/
theorem encoder_length_safety_witness :
    create_lang_protobuf [7, 8] =
      some ([0x0A, 0x03, 0x61, 0x73, 0x72, 0x12, 2] ++ [7, 8] ++ [0x1A, 0x00]) ∧
    create_lang_protobuf (List.replicate 256 0) = none ∧
    create_params_protobuf [1] [2, 3] =
      some ([0x0A, 1] ++ [1] ++ [0x12, 2] ++ [2, 3] ++ [0x18, 0x01]) ∧
    create_params_protobuf (List.replicate 300 0) [] = none := by
  refine ⟨?_, ?_, ?_, ?_⟩
  · exact encoder_length_safety.1 [7, 8] (by decide)
  · exact encoder_length_safety.2.1 (List.replicate 256 0)
      (by rw [List.length_replicate]; omega)
  · exact encoder_length_safety.2.2.1 [1] [2, 3] (by decide) (by decide)
  · exact encoder_length_safety.2.2.2 (List.replicate 300 0) []
      (Or.inl (by rw [List.length_replicate]; omega))

/-! ## Percent-encoding and the `=` replace pass -/

theorem hexUpper_ne61 (n : Nat) : hexUpper n ≠ 61 := by
  unfold hexUpper
  split
  · omega
  · split <;> omega

theorem pyQuoteByte_ne61 (b : Nat) : 61 ∉ pyQuoteByte b := by
  intro hmem
  unfold pyQuoteByte at hmem
  by_cases h : isQuoteSafe b
  · simp only [h, if_pos, List.mem_singleton] at hmem
    simp only [isQuoteSafe, Bool.or_eq_true, Bool.and_eq_true, decide_eq_true_eq,
      beq_iff_eq] at h
    omega
  · simp only [h, if_neg, Bool.false_eq_true, not_false_eq_true, List.mem_cons,
      List.mem_singleton, List.not_mem_nil, or_false] at hmem
    rcases hmem with h1 | h2 | h3
    · omega
    · exact hexUpper_ne61 _ h2.symm
    · exact hexUpper_ne61 _ h3.symm

theorem pyQuote_ne61 : ∀ bs : List Nat, 61 ∉ pyQuote bs
  | [] => by simp [pyQuote]
  | b :: rest => by
    simp only [pyQuote, List.mem_append]
    push_neg
    exact ⟨pyQuoteByte_ne61 b, pyQuote_ne61 rest⟩

theorem replaceEq_of_not_mem : ∀ l : List Nat, 61 ∉ l → replaceEq l = l
  | [], _ => rfl
  | b :: rest, h => by
    have hb : b ≠ 61 := fun hc => h (hc ▸ List.mem_cons_self b rest)
    have hr : 61 ∉ rest := fun hc => h (List.mem_cons_of_mem b hc)
    simp [replaceEq, hb, replaceEq_of_not_mem rest hr]

/-- C4 counterexample: for the default language code `"en"`, the
base64 of the inner record does contain an `=` padding byte, yet no
literal `=` survives `urllib.parse.quote` (whose safe set excludes
`=`), and the explicit `.replace('=', '%3D')` post-pass is a no-op on
the percent-encoded string — refuting the claim that `=` survives
percent-encoding and that the post-pass is necessary. -/
theorem quote_replace_cex :
    61 ∈ b64encode ((create_lang_protobuf (strBytes "en")).getD []) ∧
    61 ∉ pyQuote (b64encode ((create_lang_protobuf (strBytes "en")).getD [])) ∧
    replaceEq (pyQuote (b64encode ((create_lang_protobuf (strBytes "en")).getD []))) =
      pyQuote (b64encode ((create_lang_protobuf (strBytes "en")).getD [])) := by
  refine ⟨by decide, by decide, by decide⟩

/-- C4 amended: `urllib.parse.quote` itself escapes `=` (its safe set
excludes it): a literal `=` byte is emitted as `%3D` by the
percent-encoding step, no literal `=` ever survives it, and the
explicit `.replace('=', '%3D')` post-pass is always a no-op on the
percent-encoded string. -/
theorem quote_replace_amended :
    pyQuoteByte 61 = [37, 51, 68] ∧
    (∀ bs : List Nat, 61 ∉ pyQuote bs) ∧
    (∀ bs : List Nat, replaceEq (pyQuote bs) = pyQuote bs) := by
  refine ⟨by decide, pyQuote_ne61, fun bs => replaceEq_of_not_mem _ (pyQuote_ne61 bs)⟩

/-! ## Retry executor -/

theorem download_go_attempts_le (fetch : Nat → FetchAttempt) (a : Nat) :
    ∀ n : Nat, (download_with_retry_go fetch a n).attempts ≤ n := by
  intro n
  induction n generalizing a with
  | zero => simp [download_with_retry_go]
  | succ n ih =>
    simp only [download_with_retry_go]
    cases fetch a with
    | result d => cases d <;> simp
    | raise =>
      by_cases hn : n = 0
      · simp [hn]
      · simp only [hn, if_neg, reduceIte]
        have := ih (a + 1)
        omega

/-- C2: `download_with_retry` makes at most `MAX_RETRIES = 3`
attempts; an attempt returning a segment list (after any number of
raising attempts before it) stops immediately with the list as
outcome; an attempt returning the `None` sentinel stops immediately
with `STATUS_NO_SUBTITLE` and is never retried; three raising attempts
yield `STATUS_FAILED` after exactly 3 attempts with exactly 2 sleeps
(only between attempts, none after the last); raising twice and then
returning a list yields the data outcome with exactly 3 attempts —
which the status state machine folds to `STATUS_OK` (last clause). -/
theorem download_with_retry_spec :
    (∀ fetch, (download_with_retry fetch).attempts ≤ 3) ∧
    (∀ (fetch : Nat → FetchAttempt) (segs : List Segment) (k : Nat),
      k = 1 ∨ k = 2 ∨ k = 3 → (∀ j, 1 ≤ j → j < k → fetch j = .raise) →
      fetch k = .result (some segs) →
      download_with_retry fetch = ⟨.data segs, k, k - 1⟩) ∧
    (∀ (fetch : Nat → FetchAttempt) (k : Nat),
      k = 1 ∨ k = 2 ∨ k = 3 → (∀ j, 1 ≤ j → j < k → fetch j = .raise) →
      fetch k = .result none →
      download_with_retry fetch = ⟨.noSubtitle, k, k - 1⟩) ∧
    (∀ fetch : Nat → FetchAttempt,
      fetch 1 = .raise → fetch 2 = .raise → fetch 3 = .raise →
      download_with_retry fetch = ⟨.failed, 3, 2⟩) ∧
    (∀ (pid : String) (segs : List Segment) (s0 : Status),
      pid ≠ "" → s0 ≠ .ok → s0 ≠ .noSubtitle →
      provider_step (fun _ => .data segs) pid s0 = (.ok, 1, [(pid, segs)])) := by
  refine ⟨?_, ?_, ?_, ?_, ?_⟩
  · intro fetch
    exact download_go_attempts_le fetch 1 3
  · intro fetch segs k hk hraise hdata
    rcases hk with rfl | rfl | rfl
    · simp [download_with_retry, MAX_RETRIES, download_with_retry_go, hdata]
    · have h1 : fetch 1 = .raise := hraise 1 (by omega) (by omega)
      simp [download_with_retry, MAX_RETRIES, download_with_retry_go, h1, hdata]
    · have h1 : fetch 1 = .raise := hraise 1 (by omega) (by omega)
      have h2 : fetch 2 = .raise := hraise 2 (by omega) (by omega)
      simp [download_with_retry, MAX_RETRIES, download_with_retry_go, h1, h2, hdata]
  · intro fetch k hk hraise hnone
    rcases hk with rfl | rfl | rfl
    · simp [download_with_retry, MAX_RETRIES, download_with_retry_go, hnone]
    · have h1 : fetch 1 = .raise := hraise 1 (by omega) (by omega)
      simp [download_with_retry, MAX_RETRIES, download_with_retry_go, h1, hnone]
    · have h1 : fetch 1 = .raise := hraise 1 (by omega) (by omega)
      have h2 : fetch 2 = .raise := hraise 2 (by omega) (by omega)
      simp [download_with_retry, MAX_RETRIES, download_with_retry_go, h1, h2, hnone]
  · intro fetch h1 h2 h3
    simp [download_with_retry, MAX_RETRIES, download_with_retry_go, h1, h2, h3]
  · intro pid segs s0 hpid h1 h2
    simp [provider_step, hpid, h1, h2]

/-- Witness for `download_with_retry_spec`: an always-raising
capability stops as `FAILED` after 3 attempts and 2 sleeps; one that
raises twice then returns `[ ]` gives the data outcome on attempt 3;
one that returns `None` at once gives `NO_SUBTITLE` after 1 attempt. -/
theorem download_with_retry_spec_witness :
    download_with_retry (fun _ => .raise) = ⟨.failed, 3, 2⟩ ∧
    download_with_retry (fun j => if j < 3 then .raise else .result (some [])) =
      ⟨.data [], 3, 2⟩ ∧
    download_with_retry (fun _ => .result none) = ⟨.noSubtitle, 1, 0⟩ := by
  refine ⟨?_, ?_, ?_⟩
  · exact download_with_retry_spec.2.2.2.1 (fun _ => .raise) rfl rfl rfl
  · exact download_with_retry_spec.2.1 (fun j => if j < 3 then .raise else .result (some []))
      [] 3 (by omega) (fun j h1 h2 => by interval_cases j <;> rfl) rfl
  · exact download_with_retry_spec.2.2.1 (fun _ => .result none) 1 (by omega)
      (fun j h1 h2 => by omega) rfl

/-! ## Status state machine -/

theorem provider_step_empty (f : String → Outcome) (s0 : Status) :
    provider_step f "" s0 = (.noSubtitle, 0, []) := by
  simp [provider_step]

theorem provider_step_terminal (f : String → Outcome) (pid : String) (s0 : Status)
    (hpid : pid ≠ "") (hs : s0 = .ok ∨ s0 = .noSubtitle) :
    provider_step f pid s0 = (s0, 0, []) := by
  rcases hs with rfl | rfl <;> simp [provider_step, hpid]

theorem provider_step_fetch (f : String → Outcome) (pid : String) (s0 : Status)
    (hpid : pid ≠ "") (h1 : s0 ≠ .ok) (h2 : s0 ≠ .noSubtitle) :
    provider_step f pid s0 =
      match f pid with
      | .data segs => (.ok, 1, [(pid, segs)])
      | .noSubtitle => (.noSubtitle, 1, [])
      | .failed => (.failed, 1, []) := by
  simp [provider_step, hpid, h1, h2]

/-- C1: per-provider dispatch of `process_video`.  For each provider
independently: an empty identifier yields `NO_SUBTITLE`
unconditionally with zero retry-executor calls; a persisted `OK` or
`NO_SUBTITLE` is kept unchanged with zero calls; otherwise exactly one
retry-executor call happens, a data outcome sets `OK` and writes the
segment list to that provider's sink keyed by the identifier, and a
`NO_SUBTITLE` / `FAILED` outcome becomes the status directly. -/
theorem process_video_dispatch :
    ∀ (env : Env) (vtid ytid : String) (entry : Entry),
    ((vtid = "" →
        (process_video env vtid ytid entry).entry.vt_status = some .noSubtitle ∧
        (process_video env vtid ytid entry).vtCalls = 0) ∧
     (vtid ≠ "" → entry.vt_status = some .ok ∨ entry.vt_status = some .noSubtitle →
        (process_video env vtid ytid entry).entry.vt_status = entry.vt_status ∧
        (process_video env vtid ytid entry).vtCalls = 0) ∧
     (vtid ≠ "" → ¬(entry.vt_status = some .ok ∨ entry.vt_status = some .noSubtitle) →
        (process_video env vtid ytid entry).vtCalls = 1 ∧
        (∀ segs, env.vt vtid = .data segs →
          (process_video env vtid ytid entry).entry.vt_status = some .ok ∧
          (process_video env vtid ytid entry).vtWrites = [(vtid, segs)]) ∧
        (env.vt vtid = .noSubtitle →
          (process_video env vtid ytid entry).entry.vt_status = some .noSubtitle) ∧
        (env.vt vtid = .failed →
          (process_video env vtid ytid entry).entry.vt_status = some .failed))) ∧
    ((ytid = "" →
        (process_video env vtid ytid entry).entry.yt_status = some .noSubtitle ∧
        (process_video env vtid ytid entry).ytCalls = 0) ∧
     (ytid ≠ "" → entry.yt_status = some .ok ∨ entry.yt_status = some .noSubtitle →
        (process_video env vtid ytid entry).entry.yt_status = entry.yt_status ∧
        (process_video env vtid ytid entry).ytCalls = 0) ∧
     (ytid ≠ "" → ¬(entry.yt_status = some .ok ∨ entry.yt_status = some .noSubtitle) →
        (process_video env vtid ytid entry).ytCalls = 1 ∧
        (∀ segs, env.yt ytid = .data segs →
          (process_video env vtid ytid entry).entry.yt_status = some .ok ∧
          (process_video env vtid ytid entry).ytWrites = [(ytid, segs)]) ∧
        (env.yt ytid = .noSubtitle →
          (process_video env vtid ytid entry).entry.yt_status = some .noSubtitle) ∧
        (env.yt ytid = .failed →
          (process_video env vtid ytid entry).entry.yt_status = some .failed))) := by
  intro env vtid ytid entry
  constructor
  · refine ⟨fun h => ?_, fun hpid hs => ?_, fun hpid hs => ?_⟩
    · subst h
      simp [process_video, provider_step_empty]
    · have hs0 : entry.vt_status.getD .failed = .ok ∨
          entry.vt_status.getD .failed = .noSubtitle := by
        rcases hs with h | h <;> simp [h]
      constructor
      · simp only [process_video, provider_step_terminal env.vt vtid _ hpid hs0]
        rcases hs with h | h <;> simp [h]
      · simp [process_video, provider_step_terminal env.vt vtid _ hpid hs0]
    · push_neg at hs
      have h1 : entry.vt_status.getD .failed ≠ .ok := by
        cases h : entry.vt_status with
        | none => simp
        | some s => simpa [h] using fun hc => hs.1 (by rw [h, hc])
      have h2 : entry.vt_status.getD .failed ≠ .noSubtitle := by
        cases h : entry.vt_status with
        | none => simp
        | some s => simpa [h] using fun hc => hs.2 (by rw [h, hc])
      have hstep := provider_step_fetch env.vt vtid _ hpid h1 h2
      refine ⟨?_, fun segs hd => ?_, fun hd => ?_, fun hd => ?_⟩
      · cases henv : env.vt vtid <;> simp [process_video, hstep, henv]
      · simp [process_video, hstep, hd]
      · simp [process_video, hstep, hd]
      · simp [process_video, hstep, hd]
  · refine ⟨fun h => ?_, fun hpid hs => ?_, fun hpid hs => ?_⟩
    · subst h
      simp [process_video, provider_step_empty]
    · have hs0 : entry.yt_status.getD .failed = .ok ∨
          entry.yt_status.getD .failed = .noSubtitle := by
        rcases hs with h | h <;> simp [h]
      constructor
      · simp only [process_video, provider_step_terminal env.yt ytid _ hpid hs0]
        rcases hs with h | h <;> simp [h]
      · simp [process_video, provider_step_terminal env.yt ytid _ hpid hs0]
    · push_neg at hs
      have h1 : entry.yt_status.getD .failed ≠ .ok := by
        cases h : entry.yt_status with
        | none => simp
        | some s => simpa [h] using fun hc => hs.1 (by rw [h, hc])
      have h2 : entry.yt_status.getD .failed ≠ .noSubtitle := by
        cases h : entry.yt_status with
        | none => simp
        | some s => simpa [h] using fun hc => hs.2 (by rw [h, hc])
      have hstep := provider_step_fetch env.yt ytid _ hpid h1 h2
      refine ⟨?_, fun segs hd => ?_, fun hd => ?_, fun hd => ?_⟩
      · cases henv : env.yt ytid <;> simp [process_video, hstep, henv]
      · simp [process_video, hstep, hd]
      · simp [process_video, hstep, hd]
      · simp [process_video, hstep, hd]

/-- Witness for `process_video_dispatch`: with a concrete environment
and entry, the empty VoiceTube id gives `NO_SUBTITLE` with no call, a
persisted `OK` YouTube status is kept with no call, and a pending
VoiceTube slot with a data outcome gives `OK` plus a sink write. -/
theorem process_video_dispatch_witness :
    ((process_video env0 "" "y" ⟨"", "y", some .ok, some .ok⟩).entry.vt_status =
        some .noSubtitle ∧
      (process_video env0 "" "y" ⟨"", "y", some .ok, some .ok⟩).vtCalls = 0) ∧
    ((process_video env0 "" "y" ⟨"", "y", some .ok, some .ok⟩).entry.yt_status =
        some .ok ∧
      (process_video env0 "" "y" ⟨"", "y", some .ok, some .ok⟩).ytCalls = 0) ∧
    ((process_video ⟨fun _ => .data [], fun _ => .failed⟩ "v" "" Entry.empty).vtCalls = 1 ∧
      (process_video ⟨fun _ => .data [], fun _ => .failed⟩ "v" "" Entry.empty).entry.vt_status =
        some .ok ∧
      (process_video ⟨fun _ => .data [], fun _ => .failed⟩ "v" "" Entry.empty).vtWrites =
        [("v", [])]) := by
  refine ⟨?_, ?_, ?_⟩
  · exact (process_video_dispatch env0 "" "y" ⟨"", "y", some .ok, some .ok⟩).1.1 rfl
  · exact (process_video_dispatch env0 "" "y" ⟨"", "y", some .ok, some .ok⟩).2.2.1
      (by decide) (Or.inl rfl)
  · have h := (process_video_dispatch ⟨fun _ => .data [], fun _ => .failed⟩ "v" ""
      Entry.empty).1.2.2 (by decide) (by decide)
    exact ⟨h.1, (h.2.1 [] rfl).1, (h.2.1 [] rfl).2⟩

/-! ## Provider adapters: non-2xx handling and segment filtering -/

/-- C7: for both adapters, a response whose status code is not 2xx is
returned as the no-data sentinel — the code compares against 200, so
any non-200 (hence any non-2xx) code yields `None` whatever the body
is, the body is parsed only on status 200, and the retry executor
classifies such a response as `NO_SUBTITLE` after a single attempt
(not as a retried failure, not as an error). -/
theorem non2xx_is_no_data :
    (∀ (code : Nat) (body : Option VtData), ¬(200 ≤ code ∧ code < 300) →
      fetch_vt_transcript code body = none) ∧
    (∀ (code : Nat) (body : Option VtData), code ≠ 200 →
      fetch_vt_transcript code body = none) ∧
    (∀ (code : Nat) (body : Option VtData), ¬(200 ≤ code ∧ code < 300) →
      download_with_retry (fun _ => .result (fetch_vt_transcript code body)) =
        ⟨.noSubtitle, 1, 0⟩) ∧
    (∀ (code : Nat) (body : YtBody), ¬(200 ≤ code ∧ code < 300) →
      fetch_yt_transcript code body = none) ∧
    (∀ (code : Nat) (body : YtBody), code ≠ 200 →
      fetch_yt_transcript code body = none) ∧
    (∀ (code : Nat) (body : YtBody), ¬(200 ≤ code ∧ code < 300) →
      download_with_retry (fun _ => .result (fetch_yt_transcript code body)) =
        ⟨.noSubtitle, 1, 0⟩) := by
  have hvt : ∀ (code : Nat) (body : Option VtData), code ≠ 200 →
      fetch_vt_transcript code body = none := by
    intro code body h
    simp [fetch_vt_transcript, h]
  have hyt : ∀ (code : Nat) (body : YtBody), code ≠ 200 →
      fetch_yt_transcript code body = none := by
    intro code body h
    simp [fetch_yt_transcript, h]
  refine ⟨fun code body h => hvt code body (by omega), hvt,
    fun code body h => ?_, fun code body h => hyt code body (by omega), hyt,
    fun code body h => ?_⟩
  · simp only [hvt code body (by omega)]
    rfl
  · simp only [hyt code body (by omega)]
    rfl

/-- Witness for `non2xx_is_no_data`: a 404 response is the no-data
sentinel for both adapters and becomes `NO_SUBTITLE` in one attempt. -/
theorem non2xx_is_no_data_witness :
    fetch_vt_transcript 404 (some ⟨some [⟨some 1, some 2, some ⟨some "hi", false⟩⟩]⟩) =
      none ∧
    download_with_retry (fun _ => .result (fetch_vt_transcript 404 none)) =
      ⟨.noSubtitle, 1, 0⟩ ∧
    fetch_yt_transcript 500 ⟨some [⟨some [⟨some ⟨some 0, some 1000, some "t"⟩⟩]⟩]⟩ =
      none := by
  refine ⟨?_, ?_, ?_⟩
  · exact non2xx_is_no_data.1 404 _ (by omega)
  · exact non2xx_is_no_data.2.2.1 404 none (by omega)
  · exact non2xx_is_no_data.2.2.2.1 500 _ (by omega)

/-- C8 counterexample: a VoiceTube response body with one caption line
carrying a text and one whose `originalText` dictionary is non-empty
(truthy) but lacks the `'text'` key.  The claim says the second entry
is skipped and the output is a one-element list; the code instead
emits it as an empty-text segment, giving a two-element list.
(In Python: `{'originalText': {'lang': 'en'}}` is truthy, so the line
passes the `if not original_text: continue` guard and
`original_text.get('text', '')` yields `''`.) -/
theorem segment_filter_cex :
    vt_parse_lines
        [⟨some 0, some 1, some ⟨some "hi", false⟩⟩,
         ⟨some 1, some 2, some ⟨none, true⟩⟩] =
      [⟨0, 1, "hi"⟩, ⟨1, 3, ""⟩] ∧
    (vt_parse_lines
        [⟨some 0, some 1, some ⟨some "hi", false⟩⟩,
         ⟨some 1, some 2, some ⟨none, true⟩⟩]).length ≠ 1 := by
  constructor
  · norm_num [vt_parse_lines, VtOrig.truthy, Segment.mk.injEq]
  · norm_num [vt_parse_lines, VtOrig.truthy]

/-- C8 amended: in the YouTube parser a segment without a renderer, or
whose nested content field is absent, is skipped entirely and never
emitted; in the VoiceTube parser a line whose `originalText` is absent
or falsy (empty) is skipped entirely — but a line with a truthy
`originalText` lacking the `'text'` key is emitted with empty text.
A response with one entry with text and one entry whose text container
is absent yields exactly a one-element list, for both adapters. -/
theorem segment_filter_amended :
    (∀ (l : VtLine) (rest : List VtLine), l.originalText = none →
      vt_parse_lines (l :: rest) = vt_parse_lines rest) ∧
    (∀ (l : VtLine) (o : VtOrig) (rest : List VtLine),
      l.originalText = some o → o.truthy = false →
      vt_parse_lines (l :: rest) = vt_parse_lines rest) ∧
    (∀ (s : YtSeg) (rest : List YtSeg), s.transcriptSegmentRenderer = none →
      parse_segments (s :: rest) = parse_segments rest) ∧
    (∀ (s : YtSeg) (r : YtRenderer) (rest : List YtSeg),
      s.transcriptSegmentRenderer = some r → r.content = none →
      parse_segments (s :: rest) = parse_segments rest) ∧
    vt_parse_lines
        [⟨some 0, some 1, some ⟨some "hi", false⟩⟩, ⟨some 1, some 2, none⟩] =
      [⟨0, 1, "hi"⟩] ∧
    parse_segments
        [⟨some ⟨some 1000, some 2000, some "yo"⟩⟩, ⟨some ⟨some 0, some 1, none⟩⟩] =
      [⟨1, 2, "yo"⟩] := by
  refine ⟨fun l rest h => ?_, fun l o rest h ho => ?_, fun s rest h => ?_,
    fun s r rest h hc => ?_,
    by norm_num [vt_parse_lines, VtOrig.truthy, Segment.mk.injEq],
    by norm_num [parse_segments, Segment.mk.injEq]⟩
  · simp [vt_parse_lines, h]
  · simp [vt_parse_lines, h, ho]
  · simp [parse_segments, h]
  · simp [parse_segments, h, hc]

/-- Witness for `segment_filter_amended`: concrete skipped entries for
each of the four skip rules. -/
theorem segment_filter_amended_witness :
    vt_parse_lines [⟨some 0, some 1, none⟩] = vt_parse_lines [] ∧
    vt_parse_lines [⟨some 0, some 1, some ⟨none, false⟩⟩] = vt_parse_lines [] ∧
    parse_segments [⟨none⟩] = parse_segments [] ∧
    parse_segments [⟨some ⟨some 5, some 6, none⟩⟩] = parse_segments [] := by
  refine ⟨?_, ?_, ?_, ?_⟩
  · exact segment_filter_amended.1 ⟨some 0, some 1, none⟩ [] rfl
  · exact segment_filter_amended.2.1 ⟨some 0, some 1, some ⟨none, false⟩⟩
      ⟨none, false⟩ [] rfl rfl
  · exact segment_filter_amended.2.2.1 ⟨none⟩ [] rfl
  · exact segment_filter_amended.2.2.2.1 ⟨some ⟨some 5, some 6, none⟩⟩
      ⟨some 5, some 6, none⟩ [] rfl rfl

/-! ## Batch runner: skip rule and session cap -/

theorem main_loop_stop (env : Env) (rows : List Row) (p : Progress) (n : Nat)
    (h : MAX_PER_SESSION ≤ n) : main_loop env rows p n = ⟨p, n, []⟩ := by
  cases rows with
  | nil => rfl
  | cons row rest => simp [main_loop, h]

set_option maxRecDepth 1000000 in
/-- C6: the batch runner skips a row whose checkpoint entry is present
and done without invoking the state machine, changing the progress, or
incrementing the session counter (the run is literally the run on the
remaining rows); it stops, without error, as soon as the session
counter has reached `MAX_PER_SESSION = 100`; and over 150 pending rows
starting from an empty checkpoint, exactly the first 100 rows are
processed and checkpointed in the first session (the remaining 50 get
no entry), while a second session over the same rows processes exactly
the remaining 50. -/
theorem session_cap :
    (∀ (env : Env) (row : Row) (rest : List Row) (p : Progress) (n : Nat) (e : Entry),
      Progress.find p row.id = some e → is_done e = true →
      main_loop env (row :: rest) p n = main_loop env rest p n) ∧
    (∀ (env : Env) (rows : List Row) (p : Progress) (n : Nat),
      MAX_PER_SESSION ≤ n → main_loop env rows p n = ⟨p, n, []⟩) ∧
    (run1.processed = 100 ∧
     run1.processedIds = (rows150.take 100).map Row.id ∧
     ((rows150.take 100).all fun row => (Progress.find run1.progress row.id).isSome) = true ∧
     ((rows150.drop 100).all fun row => (Progress.find run1.progress row.id).isNone) = true ∧
     run2.processed = 50 ∧
     run2.processedIds = (rows150.drop 100).map Row.id) := by
  refine ⟨?_, main_loop_stop, ?_⟩
  · intro env row rest p n e hfind hdone
    by_cases hn : MAX_PER_SESSION ≤ n
    · rw [main_loop_stop env _ p n hn, main_loop_stop env rest p n hn]
    · simp [main_loop, hn, hfind, hdone]
  · exact ⟨by decide, by decide, by decide, by decide, by decide, by decide⟩

/-- Witness for `session_cap`: a single done row is skipped (the run
equals the run on no rows), and a run whose counter already reached
the cap stops at once. -/
theorem session_cap_witness :
    main_loop env0 [⟨"r", "a", "b"⟩] [("r", ⟨"a", "b", some .ok, some .ok⟩)] 0 =
      main_loop env0 [] [("r", ⟨"a", "b", some .ok, some .ok⟩)] 0 ∧
    main_loop env0 [⟨"r", "a", "b"⟩] [] 100 = ⟨[], 100, []⟩ := by
  constructor
  · exact session_cap.1 env0 ⟨"r", "a", "b"⟩ [] _ 0 ⟨"a", "b", some .ok, some .ok⟩
      (by decide) (by decide)
  · exact session_cap.2.1 env0 [⟨"r", "a", "b"⟩] [] 100 (by decide)

end Run
